import Mathlib

/-!
Shallow embedding of the whisp-away recording/transcription core
(`src/recording.rs`, `src/helpers.rs`, `src/socket.rs`, `src/typing.rs`,
`src/faster_whisper/client.rs`, `src/faster_whisper/direct.rs`) and proofs
about the behaviour its specification claims.

Modelling conventions:
* The filesystem state the coordinator manipulates (pid file, lock file,
  stored audio-path file, artifact directory) is an explicit `FS` record.
* Signals sent to a process are recorded in a `World` (per-pid signal
  history); the outcome of probing a process (`kill -0 <pid>` run as a
  subprocess) after a given signal history is given by a `ProcEnv` oracle.
  The external `kill` utility exits successfully exactly when the signal
  could be delivered, so its exit status maps `success ↦ true` and every
  error (`EPERM`, `ESRCH`, `EINVAL`, failure to spawn the utility) to
  `false`; this boundary is `kill_cmd_ok`.
* The pid file's string contents are only ever inspected through
  `trim` + `parse::<u32>` (and the `is_empty`-after-trim test), so they are
  abstracted by their classification `PidContent`: a string parsing to a
  pid, non-empty unparsable junk, or whitespace-only content.
* Out-of-scope boundaries (daemon socket, python backend, text output
  sink, notifications) are oracles / symbolic events, per the spec's
  "external collaborators" scoping.
-/

deriving instance DecidableEq for Except

namespace WhispAway

/-- Signals used by the escalating termination sequence (`kill -INT`,
`kill -TERM`, `kill -KILL` subprocess invocations in `recording.rs`). -/
inductive Sig
  | int
  | term
  | kill
deriving DecidableEq, Repr

/-- Outcome of running `kill -0 <pid>`: the signal was deliverable
(`success`), permission denied (`eperm`), no such process (`esrch`),
invalid id (`einval`), or the probe subprocess could not be spawned at
all (`spawnFail`, the `Err` arm of `Command::status()`). -/
inductive ProbeOutcome
  | success
  | eperm
  | esrch
  | einval
  | spawnFail
deriving DecidableEq, Repr

/-- Per-pid history of signals sent so far by this program. -/
def World : Type := Nat → List Sig

/-- Process environment: what probing a pid reports after a given signal
history has been delivered to it.  Deterministic oracle for the external
process world. -/
def ProcEnv : Type := Nat → List Sig → ProbeOutcome

/-- Record that signal `s` was sent to `pid` (the `kill -INT`, `kill -TERM`
and `kill -KILL` subprocess calls; their own exit status is discarded by
the source via `let _ = ...`). -/
def sendSig (w : World) (pid : Nat) (s : Sig) : World :=
  fun p => if p = pid then w p ++ [s] else w p

/-- Exit status of the external `kill` utility for a probe outcome:
`some true` on success, `some false` on any kill(2) error, `none` when
the utility could not be run (`status()` returned `Err`). -/
def kill_cmd_ok : ProbeOutcome → Option Bool
  | .success => some true
  | .eperm => some false
  | .esrch => some false
  | .einval => some false
  | .spawnFail => none

/-- `helpers.rs::is_process_running`: run `kill -0 <pid>`, `map` the status
to `success()`, `unwrap_or(false)`. -/
def is_process_running (env : ProcEnv) (w : World) (pid : Nat) : Bool :=
  (kill_cmd_ok (env pid (w pid))).getD false

/-- Contents of the pid file, abstracted by how the source inspects them
(`trim()` followed by `is_empty()` / `parse::<u32>()`): `num n` is a
string whose trim parses to the pid `n`, `junk` is non-empty but
unparsable (including numeric overflow past `u32::MAX`), `blank` trims
to the empty string.  `start_recording` writes `pid.to_string()`, which
is classified `num pid`. -/
inductive PidContent
  | num (n : Nat)
  | junk
  | blank
deriving DecidableEq, Repr

/-- Result of `pid_str.trim().parse::<u32>()` on classified contents. -/
def parsePid : PidContent → Option Nat
  | .num n => some n
  | .junk => none
  | .blank => none

/-- Result of `pid_str.trim().is_empty()` on classified contents. -/
def pidIsEmpty : PidContent → Bool
  | .blank => true
  | _ => false

/-- One entry of the artifact directory: full path, byte size, mtime in
seconds. -/
structure FileE where
  path : String
  size : Nat
  mtime : Nat
deriving DecidableEq, Repr

/-- Size reported by `fs::metadata(p)` when `p` exists, `none` otherwise. -/
def lookupSize (files : List FileE) (p : String) : Option Nat :=
  (files.find? (fun e => e.path == p)).map (fun e => e.size)

/-- Effect of `fs::remove_file(p)` on the directory listing. -/
def removeEntry (files : List FileE) (p : String) : List FileE :=
  files.filter (fun e => !(e.path == p))

/-- Model of Rust's `str::trim`: drop whitespace from both ends
(expressed on the character list so it evaluates by kernel reduction). -/
def strTrim (s : String) : String :=
  ⟨((s.data.dropWhile Char.isWhitespace).reverse.dropWhile Char.isWhitespace).reverse⟩

/-- Filesystem state touched by the recording coordinator:
`pidFile` is `/tmp/whisp-away-recording.pid`,
`lockFile` whether `/tmp/whisp-away-recording.lock` exists on disk,
`lockHeld` whether some live process currently holds `flock` on it,
`audioPathFile` the contents of `/run/user/<uid>/voice-audio-file.tmp`,
`files` the artifact directory listing. -/
structure FS where
  pidFile : Option PidContent
  lockFile : Bool
  lockHeld : Bool
  audioPathFile : Option String
  files : List FileE
deriving Repr

/-- `recording.rs::is_recording`: returns true when the pid file parses
and that pid probes alive, otherwise when the lock file exists and a
non-blocking `flock` attempt fails (someone else holds it); else false.
The flock probe acquires and immediately releases when unheld, a net
no-op, so the query is modelled as a pure function of the state. -/
def is_recording (env : ProcEnv) (w : World) (fs : FS) : Bool :=
  let lockCheck := fs.lockFile && fs.lockHeld
  match fs.pidFile with
  | some c =>
    match parsePid c with
    | some pid => if is_process_running env w pid then true else lockCheck
    | none => lockCheck
  | none => lockCheck

/-- Error message of the `WouldBlock` arm of `acquire_lock`. -/
def busyMsg : String := "Another recording is already in progress"

/-- Error message of the final-stage failure in `kill_existing_recording`. -/
def killFailMsg : String := "Failed to kill existing recording process"

/-- `recording.rs::acquire_lock`: open the lock path with
create + truncate (so the file exists on disk afterwards even when the
flock attempt then fails), then try a non-blocking exclusive `flock`,
which fails with `WouldBlock` exactly when another live process holds
the lock.  The handle acquired on success belongs to the calling
invocation and is dropped (hence the flock released) when that
invocation returns, so the model keeps `lockHeld = false` for the
caller's own transient ownership.  Hard I/O faults other than
`WouldBlock` are outside the model. -/
def acquire_lock (fs : FS) : Except String Unit × FS :=
  if fs.lockHeld then (.error busyMsg, { fs with lockFile := true })
  else (.ok (), { fs with lockFile := true })

/-- Result of `kill_existing_recording`. -/
structure KillR where
  res : Except String Unit
  fs : FS
  w : World

/-- The escalating termination stage sequence, inlined identically at its
two source sites (`kill_existing_recording`, recording.rs lines 113-136,
and `stop_recording`, lines 260-287): send SIGINT, re-probe, send
SIGTERM only if the process still probes alive, re-probe, send SIGKILL
only if it still probes alive.  Returns the world with those signals
recorded. -/
def escalate (env : ProcEnv) (w : World) (pid : Nat) : World :=
  let w1 := sendSig w pid Sig.int
  let w2 := if is_process_running env w1 pid then sendSig w1 pid Sig.term else w1
  if is_process_running env w2 pid then sendSig w2 pid Sig.kill else w2

/-- `recording.rs::kill_existing_recording`: if the pid file reads and
its trimmed contents are non-empty and parse to a pid that probes alive,
run the escalation sequence, then probe one final time and fail without
removing the pid file if the process still probes alive; in every
non-failing case the pid file is removed (when it was readable). -/
def kill_existing_recording (env : ProcEnv) (w : World) (fs : FS) : KillR :=
  match fs.pidFile with
  | none => ⟨.ok (), fs, w⟩
  | some c =>
    match parsePid c with
    | none => ⟨.ok (), { fs with pidFile := none }, w⟩
    | some pid =>
      if is_process_running env w pid then
        let w3 := escalate env w pid
        if is_process_running env w3 pid then ⟨.error killFailMsg, fs, w3⟩
        else ⟨.ok (), { fs with pidFile := none }, w3⟩
      else ⟨.ok (), { fs with pidFile := none }, w⟩

/-- `MAX_RECORDING_AGE_SECS` from `recording.rs`. -/
def MAX_RECORDING_AGE_SECS : Nat := 600

/-- `recording.rs::cleanup_old_recordings`: delete entries of the runtime
directory whose name matches `voice-recording-*.wav`, that are not the
current audio file, and whose age exceeds the retention ceiling
(`duration_since` errors for future mtimes, which truncated subtraction
reproduces: such entries are kept). -/
def cleanup_old_recordings (dir : String) (now : Nat) (cur : Option String)
    (files : List FileE) : List FileE :=
  files.filter (fun e =>
    !(e.path.startsWith (dir ++ "/voice-recording-") && e.path.endsWith ".wav"
      && !(cur == some e.path) && decide (MAX_RECORDING_AGE_SECS < now - e.mtime)))

/-- Result of `stop_recording`. -/
structure StopR where
  res : Except String (Option String)
  fs : FS
  w : World

/-- Artifact-path resolution of `stop_recording` (source lines 303-342):
an override file is copied into a freshly named artifact slot (failing
when the source cannot be read), otherwise the path persisted by
`start_recording` is read back (trimmed) and its marker file deleted; an
unreadable marker yields `Ok(None)`. -/
def stop_resolve (dir : String) (now : Nat) (override : Option String)
    (fs2 : FS) (w : World) : StopR :=
  match override with
  | some p =>
    match lookupSize fs2.files p with
    | some sz =>
      ⟨.ok (some (dir ++ "/voice-recording-override-" ++ toString now ++ ".wav")),
        { fs2 with files :=
          ⟨dir ++ "/voice-recording-override-" ++ toString now ++ ".wav", sz, now⟩
            :: fs2.files }, w⟩
    | none => ⟨.error "Failed to copy audio file to temporary location", fs2, w⟩
  | none =>
    match fs2.audioPathFile with
    | some s => ⟨.ok (some (strTrim s)), { fs2 with audioPathFile := none }, w⟩
    | none => ⟨.ok none, fs2, w⟩

/-- Shared tail of `stop_recording` (source lines 295-342): remove the pid
file, remove the lock file if it exists (unlinking it, after which no
holder of the old inode can block a fresh `acquire_lock`), then resolve
the artifact path. -/
def stop_tail (dir : String) (now : Nat) (override : Option String)
    (fs : FS) (w : World) : StopR :=
  stop_resolve dir now override
    (if fs.lockFile then { fs with pidFile := none, lockFile := false, lockHeld := false }
      else { fs with pidFile := none }) w

/-- `recording.rs::stop_recording`: after a bounded poll for the pid file
(a no-op on the static state of the model), read it: whitespace-only
contents remove the pid file and return `Ok(None)` at once; a parsed pid
that probes dead removes the pid file and the audio-path marker and
returns `Ok(None)` at once (neither early return touches the lock
file); a live pid receives the escalation sequence with no probe after
the final stage; unparsable or unreadable contents skip the kill.  All
non-early paths continue into `stop_tail`. -/
def stop_recording (env : ProcEnv) (w : World) (fs : FS) (dir : String)
    (now : Nat) (override : Option String) : StopR :=
  match fs.pidFile with
  | some c =>
    if pidIsEmpty c then ⟨.ok none, { fs with pidFile := none }, w⟩
    else
      match parsePid c with
      | some pid =>
        if !is_process_running env w pid then
          ⟨.ok none, { fs with pidFile := none, audioPathFile := none }, w⟩
        else
          stop_tail dir now override fs (escalate env w pid)
      | none => stop_tail dir now override fs w
  | none => stop_tail dir now override fs w

/-- Result of `start_recording`. -/
structure StartR where
  res : Except String Unit
  fs : FS
  w : World

/-- `recording.rs::start_recording`: garbage-collect old artifacts, kill
any process named by the existing pid file (fatal on failure), acquire
the session lock (fatal `Busy` when held), persist the freshly named
audio path, spawn the capture subprocess (`spawn` is the oracle for the
child pid, `none` modelling a spawn failure), and persist its pid.  The
lock handle is dropped at every return point after acquisition, so the
lock is never held by this invocation once it returns. -/
def start_recording (env : ProcEnv) (w : World) (fs : FS) (dir : String)
    (now : Nat) (spawn : Option Nat) : StartR :=
  let fs0 : FS := { fs with files := cleanup_old_recordings dir now none fs.files }
  match kill_existing_recording env w fs0 with
  | ⟨.error e, fs1, w1⟩ => ⟨.error e, fs1, w1⟩
  | ⟨.ok _, fs1, w1⟩ =>
    match acquire_lock fs1 with
    | (.error e, fs2) => ⟨.error e, fs2, w1⟩
    | (.ok _, fs2) =>
      let audio := dir ++ "/voice-recording-" ++ toString now ++ ".wav"
      let fs3 : FS := { fs2 with audioPathFile := some audio }
      match spawn with
      | none => ⟨.error "Failed to start pw-record", fs3, w1⟩
      | some pid => ⟨.ok (), { fs3 with pidFile := some (.num pid) }, w1⟩

/-- Observable effects at the out-of-scope boundaries (text output sink
and desktop notifications), recorded symbolically so properties about
which condition was reported, and how often the fallback backend ran,
can be stated. -/
inductive Event
  | delivered (text : String) (clip : Bool)
  | noSpeechNote (backend : String)
  | malformedNote (backend : String)
  | transFailedNote (backend : String)
  | noRecordingNote
  | noAudioNote
  | emptyNote
  | transcribingNote
  | fallbackNote
  | directCall (audio model : String)
  | directFailedNote (stderr : String)
deriving DecidableEq, Repr

/-- `typing.rs::output_text`: whitespace-only text is reported as the
valid no-speech case; otherwise the trimmed text is handed to the
out-of-scope typing/clipboard sink (modelled as an always-accepting
boundary, so the function always succeeds). -/
def output_text (text : String) (clip : Bool) (backend : String) :
    Except String Unit × List Event :=
  if (strTrim text).data.isEmpty then (.ok (), [.noSpeechNote backend])
  else (.ok (), [.delivered (strTrim text) clip])

/-- Substring test, the model of Rust's `str::contains` for literal
patterns. -/
def strContains (s pat : String) : Bool :=
  strContainsAux s.data pat.data
where
  strContainsAux : List Char → List Char → Bool
    | l, pat =>
      if pat.isPrefixOf l then true
      else
        match l with
        | [] => false
        | _ :: rest => strContainsAux rest pat

/-- Index of the first occurrence of `pat` in `l` (Rust's `str::find` for
a literal pattern, with positions counted in characters — equivalent to
byte positions here because the occurrence splits the string at the same
place). -/
def findSubIdx (pat : List Char) : List Char → Option Nat
  | [] => if pat.isPrefixOf ([] : List Char) then some 0 else none
  | c :: rest =>
    if pat.isPrefixOf (c :: rest) then some 0
    else (findSubIdx pat rest).map (· + 1)

/-- `socket.rs::extract_text_from_response`: locate the literal
`"text":` marker, skip whitespace after it, require an opening quote,
and return the characters up to the next quote (failing when no closing
quote exists). -/
def extract_text_from_response (resp : String) : Option String :=
  match findSubIdx "\"text\":".data resp.data with
  | none => none
  | some i =>
    let after := resp.data.drop (i + 7)
    let contentStart := after.dropWhile (fun c => c.isWhitespace)
    match contentStart with
    | '\"' :: textContent =>
      match findSubIdx ['\"'] textContent with
      | some _ => some (String.mk (textContent.takeWhile (fun c => c ≠ '\"')))
      | none => none
    | _ => none

/-- The source's success test on the raw response string. -/
def respSuccess (resp : String) : Bool :=
  strContains resp "\"success\":true" || strContains resp "\"success\": true"

/-- Outcome of the socket conversation with the daemon: the connect can
fail (signalling "no daemon"), the request write or response read can
fail, or a full response string is obtained. -/
inductive ConnOutcome
  | connectFail (e : String)
  | writeFail
  | readFail
  | gotResponse (resp : String)
deriving DecidableEq, Repr

/-- `socket.rs::send_transcription_request`: connect failure is returned
as an error (so the caller can run its fallback); with a full response,
a success-marked response with extractable text goes to `output_text`,
a success-marked response without extractable text is reported as the
distinct could-not-parse condition, and a non-success response as a
transcription failure — all three returning `Ok` to the caller. -/
def send_transcription_request (conn : ConnOutcome) (audio backend : String)
    (clip : Bool) : Except String Unit × List Event :=
  let _request := "\x7b\"audio_path\": \"" ++ audio ++ "\"\x7d"
  match conn with
  | .connectFail e => (.error ("Failed to connect to daemon: " ++ e), [])
  | .writeFail => (.error "Failed to send request to daemon", [])
  | .readFail => (.error "Failed to read response from daemon", [])
  | .gotResponse resp =>
    if respSuccess resp then
      match extract_text_from_response resp with
      | some t => output_text (strTrim t) clip (backend ++ " daemon")
      | none => (.ok (), [.malformedNote backend])
    else (.ok (), [.transFailedNote backend])

/-- `helpers.rs::resolve_model` inputs that are not command-line
arguments: the `WA_WHISPER_MODEL` environment variable and the `model`
field of a readable, parsable daemon config file. -/
structure ResolveEnv where
  envModel : Option String
  configModel : Option String
deriving DecidableEq, Repr

/-- `helpers.rs::resolve_model`: argument, then environment variable,
then daemon config, then the `"base.en"` default. -/
def resolve_model (arg : Option String) (r : ResolveEnv) : String :=
  match arg with
  | some m => m
  | none =>
    match r.envModel with
    | some m => m
    | none =>
      match r.configModel with
      | some m => m
      | none => "base.en"

/-- `faster_whisper/direct.rs::transcribe_with_faster_whisper`: one-shot
invocation of the python backend (`backend` is the oracle for its
outcome: stdout text on exit success, stderr on failure).  On success
the trimmed stdout goes to `output_text`; on failure the error is
surfaced.  The `directCall` event records that the backend ran, and
with which audio file and model. -/
def transcribe_with_faster_whisper (backend : Except String String)
    (audio model : String) (clip : Bool) : Except String Unit × List Event :=
  match backend with
  | .ok out =>
    let r := output_text (strTrim out) clip "faster-whisper"
    (r.1, .directCall audio model :: r.2)
  | .error stderr =>
    (.error ("Transcription failed: " ++ stderr),
      [.directCall audio model, .directFailedNote stderr])

/-- Result of `stop_and_transcribe_daemon`. -/
structure RunR where
  res : Except String Unit
  fs : FS
  w : World
  events : List Event

/-- `faster_whisper/client.rs::stop_and_transcribe_daemon`: stop the
recording (propagating its errors); `None` reports the no-recording
condition; a returned path that does not exist reports the no-audio
condition; an artifact of at most 44 bytes (WAV header only) is deleted
and reported as the empty-artifact condition with no transcription
attempted; otherwise the model is resolved once, the daemon is tried,
and any daemon error falls back to exactly one direct backend call with
the same audio file and that same model, surfacing an error only if the
fallback also fails, with both causes in the message. -/
def stop_and_transcribe_daemon (env : ProcEnv) (w : World) (fs : FS)
    (dir : String) (now : Nat) (conn : ConnOutcome) (renv : ResolveEnv)
    (backend : Except String String) (clip : Bool) : RunR :=
  match stop_recording env w fs dir now none with
  | ⟨.error e, fs1, w1⟩ => ⟨.error e, fs1, w1, []⟩
  | ⟨.ok none, fs1, w1⟩ => ⟨.ok (), fs1, w1, [.noRecordingNote]⟩
  | ⟨.ok (some audio), fs1, w1⟩ =>
    match lookupSize fs1.files audio with
    | none => ⟨.ok (), fs1, w1, [.noAudioNote]⟩
    | some sz =>
      if sz ≤ 44 then
        ⟨.ok (), { fs1 with files := removeEntry fs1.files audio }, w1, [.emptyNote]⟩
      else
        let model := resolve_model none renv
        match send_transcription_request conn audio "faster-whisper" clip with
        | (.ok _, evs) =>
          ⟨.ok (), { fs1 with files := removeEntry fs1.files audio }, w1,
            .transcribingNote :: evs⟩
        | (.error e, evs) =>
          let fb := transcribe_with_faster_whisper backend audio model clip
          ⟨fb.1.mapError
              (fun err => "Fallback transcription failed (daemon was: " ++ e ++ "): " ++ err),
            { fs1 with files := removeEntry fs1.files audio }, w1,
            .transcribingNote :: evs ++ .fallbackNote :: fb.2⟩

/-- `helpers.rs` sample conversion: the signed 16-bit integer formed
from two little-endian bytes (`i16::from_le_bytes`). -/
def toI16 (b0 b1 : Nat) : Int :=
  let x := b0 % 256 + 256 * (b1 % 256)
  if x < 32768 then (x : Int) else (x : Int) - 65536

/-- `chunks_exact(2)`: consecutive disjoint pairs, dropping a trailing
odd element. -/
def chunks2 : List Nat → List (Nat × Nat)
  | b0 :: b1 :: rest => (b0, b1) :: chunks2 rest
  | _ => []

/-- `helpers.rs::wav_to_samples`: inputs shorter than the 44-byte WAV
header are rejected; otherwise the bytes after the header are read as
little-endian 16-bit PCM and scaled by `i16::MAX`.  Samples are modelled
as exact rationals (the IEEE float rounding of the division is outside
the model). -/
def wav_to_samples (wav : List Nat) : Except String (List ℚ) :=
  if wav.length < 44 then .error "Invalid WAV file: too short"
  else .ok ((chunks2 (wav.drop 44)).map (fun p => (toI16 p.1 p.2 : ℚ) / 32767))

/-- Recogniser for the event recording a direct one-shot backend call. -/
def isDirectCall : Event → Bool
  | .directCall _ _ => true
  | _ => false

/-- Test environment: every probe reports no-such-process. -/
def envDead : ProcEnv := fun _ _ => ProbeOutcome.esrch

/-- Test environment: every probe reports permission denied. -/
def envEperm : ProcEnv := fun _ _ => ProbeOutcome.eperm

/-- Test environment: every probe reports success, whatever was sent. -/
def envImmortal : ProcEnv := fun _ _ => ProbeOutcome.success

/-- Test environment: a process probes dead exactly once SIGKILL is in
its history. -/
def envStubborn : ProcEnv := fun _ sigs =>
  if Sig.kill ∈ sigs then ProbeOutcome.esrch else ProbeOutcome.success

/-- Test world: no signals sent yet. -/
def w0 : World := fun _ => []

/-- Test state: pid file naming process 9, lock file on disk but unheld,
audio-path marker present. -/
def fsC3 : FS := ⟨some (PidContent.num 9), true, false, some "/x.wav", []⟩

/-- Test state: no pid file, a 100-byte recorded artifact whose path the
marker file holds. -/
def fsC4 : FS := ⟨none, false, false, some "/r/a.wav", [⟨"/r/a.wav", 100, 0⟩]⟩

/-- Test state: no pid file, a header-only 44-byte artifact whose path
the marker file holds. -/
def fsC5 : FS := ⟨none, false, false, some "/r/e.wav", [⟨"/r/e.wav", 44, 0⟩]⟩

/-- Test response: a success-marked daemon response carrying text. -/
def c9resp : String := "\x7b\"success\":true,\"text\":\"hi\"\x7d"

/-! ## Theorems -/

theorem sendSig_apply_ne (w : World) (pid p : Nat) (s : Sig) (h : p ≠ pid) :
    sendSig w pid s p = w p := by
  simp [sendSig, h]

theorem escalate_apply_ne (env : ProcEnv) (w : World) (pid p : Nat) (h : p ≠ pid) :
    escalate env w pid p = w p := by
  unfold escalate
  split <;> try split
  all_goals simp [sendSig, h]

theorem is_process_running_eq_of_apply_eq (env : ProcEnv) (w₁ w₂ : World) (p : Nat)
    (h : w₁ p = w₂ p) : is_process_running env w₁ p = is_process_running env w₂ p := by
  unfold is_process_running
  rw [h]

/-- `kill_existing_recording` never changes the lock state. -/
theorem kill_existing_lock_unchanged (env : ProcEnv) (w : World) (fs : FS) :
    (kill_existing_recording env w fs).fs.lockHeld = fs.lockHeld
    ∧ (kill_existing_recording env w fs).fs.lockFile = fs.lockFile := by
  obtain ⟨pf, lf, lh, apf, fls⟩ := fs
  cases pf with
  | none => exact ⟨rfl, rfl⟩
  | some c =>
    cases c with
    | num pid =>
      simp only [kill_existing_recording, parsePid]
      split <;> (try split) <;> exact ⟨rfl, rfl⟩
    | junk => exact ⟨rfl, rfl⟩
    | blank => exact ⟨rfl, rfl⟩

/-- `stop_resolve` does not change the pid file, the lock state, or the
world it is given. -/
theorem stop_resolve_state (dir : String) (now : Nat) (override : Option String)
    (fs2 : FS) (w : World) :
    (stop_resolve dir now override fs2 w).fs.pidFile = fs2.pidFile
    ∧ (stop_resolve dir now override fs2 w).fs.lockHeld = fs2.lockHeld
    ∧ (stop_resolve dir now override fs2 w).fs.lockFile = fs2.lockFile
    ∧ (stop_resolve dir now override fs2 w).w = w := by
  unfold stop_resolve
  cases override with
  | some p => cases h : lookupSize fs2.files p <;> simp [h]
  | none => cases h : fs2.audioPathFile <;> simp [h]

/-- With no override, `stop_resolve` returns the trimmed persisted audio
path when the marker is readable and `none` otherwise. -/
theorem stop_resolve_none_res (dir : String) (now : Nat) (fs2 : FS) (w : World) :
    (stop_resolve dir now none fs2 w).res
      = .ok (fs2.audioPathFile.map (fun s => strTrim s)) := by
  unfold stop_resolve
  cases h : fs2.audioPathFile <;> simp [h]

/-- `stop_tail` removes the pid file and, when no live process held the
lock on entry, leaves the lock unheld. -/
theorem stop_tail_clears (dir : String) (now : Nat) (override : Option String)
    (fs : FS) (w : World) (h : fs.lockHeld = false) :
    (stop_tail dir now override fs w).fs.pidFile = none
    ∧ (stop_tail dir now override fs w).fs.lockHeld = false := by
  unfold stop_tail
  rcases stop_resolve_state dir now override
    (if fs.lockFile then { fs with pidFile := none, lockFile := false, lockHeld := false }
      else { fs with pidFile := none }) w with ⟨h1, h2, _, _⟩
  rw [h1, h2]
  cases hlf : fs.lockFile <;> simp [hlf, h]

/-- `stop_recording` always removes the pid file and, when no live
process held the lock beforehand, no live process holds it afterwards. -/
theorem stop_recording_clears (env : ProcEnv) (w : World) (fs : FS)
    (dir : String) (now : Nat) (override : Option String)
    (h : fs.lockHeld = false) :
    (stop_recording env w fs dir now override).fs.pidFile = none
    ∧ (stop_recording env w fs dir now override).fs.lockHeld = false := by
  rcases hpf : fs.pidFile with _ | c
  · simp only [stop_recording, hpf]
    exact stop_tail_clears dir now override fs w h
  · cases c with
    | blank => simp [stop_recording, hpf, pidIsEmpty, h]
    | junk =>
      simp only [stop_recording, hpf, pidIsEmpty, parsePid, Bool.false_eq_true, if_false]
      exact stop_tail_clears dir now override fs w h
    | num pid =>
      simp only [stop_recording, hpf, pidIsEmpty, parsePid, Bool.false_eq_true, if_false]
      cases hr : is_process_running env w pid with
      | false => simp [hr, h]
      | true =>
        simp only [hr, Bool.not_true, Bool.false_eq_true, if_false]
        exact stop_tail_clears dir now override fs _ h

/-- On success, `kill_existing_recording` leaves no process alive that
the pid file named, and any process still alive was alive before and
was not the one the pid file named. -/
theorem kill_existing_survivors (env : ProcEnv) (w : World) (fs : FS)
    (h : (kill_existing_recording env w fs).res = .ok ()) (p : Nat)
    (halive : is_process_running env (kill_existing_recording env w fs).w p = true) :
    is_process_running env w p = true ∧ fs.pidFile ≠ some (PidContent.num p) := by
  obtain ⟨pf, lf, lh, apf, fls⟩ := fs
  cases pf with
  | none =>
    refine ⟨?_, by simp⟩
    simpa [kill_existing_recording] using halive
  | some c =>
    cases c with
    | junk =>
      refine ⟨?_, by simp⟩
      simpa [kill_existing_recording, parsePid] using halive
    | blank =>
      refine ⟨?_, by simp⟩
      simpa [kill_existing_recording, parsePid] using halive
    | num pid =>
      simp only [kill_existing_recording, parsePid] at h halive
      cases hr : is_process_running env w pid with
      | false =>
        simp only [hr, Bool.false_eq_true, if_false] at halive
        refine ⟨halive, ?_⟩
        simp only [ne_eq, Option.some.injEq, PidContent.num.injEq]
        intro hqp
        subst hqp
        rw [halive] at hr
        exact Bool.noConfusion hr
      | true =>
        simp only [hr, if_true] at h halive
        cases h3 : is_process_running env (escalate env w pid) pid with
        | true => simp [h3] at h
        | false =>
          simp only [h3, Bool.false_eq_true, if_false] at halive
          by_cases hpq : p = pid
          · subst hpq
            rw [halive] at h3
            exact Bool.noConfusion h3
          · rw [is_process_running_eq_of_apply_eq env _ w p
              (escalate_apply_ne env w pid p hpq)] at halive
            refine ⟨halive, ?_⟩
            simp only [ne_eq, Option.some.injEq, PidContent.num.injEq]
            intro hqp
            exact hpq hqp.symm

/-- C2 counterexample: a state with a pid file naming a dead process (5)
and an existing (unheld) lock file: `stop_recording` returns `Ok(None)`
but leaves the lock file on disk, so the claim's "no residual lock
file" clause is false at this input. -/
theorem c2_counterexample :
    (⟨some (PidContent.num 5), true, false, some "/tmp/a.wav", []⟩ : FS).pidFile
        = some (PidContent.num 5)
    ∧ is_process_running envDead w0 5 = false
    ∧ (stop_recording envDead w0
        ⟨some (PidContent.num 5), true, false, some "/tmp/a.wav", []⟩
        "/run/user/1000" 0 none).res = .ok none
    ∧ (stop_recording envDead w0
        ⟨some (PidContent.num 5), true, false, some "/tmp/a.wav", []⟩
        "/run/user/1000" 0 none).fs.lockFile = true :=
  ⟨rfl, rfl, by decide, by decide⟩

/-- C2 (amended): on a pid file naming a dead process, `stop_recording`
with no override returns `Ok(None)` and removes both record files (the
pid file and the stored audio-path file); the lock file is not touched
on this early-return path. -/
theorem c2_stop_dead_cleanup (env : ProcEnv) (w : World) (fs : FS) (dir : String)
    (now : Nat) (pid : Nat)
    (hpf : fs.pidFile = some (PidContent.num pid))
    (hdead : is_process_running env w pid = false) :
    (stop_recording env w fs dir now none).res = .ok none
    ∧ (stop_recording env w fs dir now none).fs.pidFile = none
    ∧ (stop_recording env w fs dir now none).fs.audioPathFile = none
    ∧ (stop_recording env w fs dir now none).fs.lockFile = fs.lockFile := by
  simp [stop_recording, hpf, pidIsEmpty, parsePid, hdead]

/-- C3 counterexample: a state whose pid file names process 7, which
survives even SIGKILL (it is still alive after the full escalation):
`stop_recording` nevertheless returns success, so the claim that both
operations surface an error to the caller when the process is still
alive after the kill stage is false at this input. -/
theorem c3_counterexample :
    (⟨some (PidContent.num 7), false, false, none, []⟩ : FS).pidFile
        = some (PidContent.num 7)
    ∧ is_process_running envImmortal w0 7 = true
    ∧ is_process_running envImmortal (escalate envImmortal w0 7) 7 = true
    ∧ (stop_recording envImmortal w0 ⟨some (PidContent.num 7), false, false, none, []⟩
        "/run/user/1000" 0 none).res = .ok none :=
  ⟨rfl, rfl, by decide, rfl⟩

/-- C3 (amended): with a pid file naming a live process, both
`kill_existing_recording` (the stale-process cleanup used by `start`)
and `stop_recording` send the escalating interrupt/terminate/kill
sequence, re-probing after each stage and escalating only while the
process still probes alive (`escalate`); `kill_existing_recording`
probes once more after the final stage and returns an error exactly
when the process is still alive, while `stop_recording` performs no
probe after the final stage and returns success regardless of whether
the process survived. -/
theorem c3_escalation (env : ProcEnv) (w : World) (fs : FS) (dir : String)
    (now : Nat) (pid : Nat)
    (hpf : fs.pidFile = some (PidContent.num pid))
    (halive : is_process_running env w pid = true) :
    ((kill_existing_recording env w fs).w = escalate env w pid
      ∧ (kill_existing_recording env w fs).res =
          (if is_process_running env (escalate env w pid) pid then
            Except.error killFailMsg else Except.ok ()))
    ∧ ((stop_recording env w fs dir now none).w = escalate env w pid
      ∧ (stop_recording env w fs dir now none).res =
          Except.ok (fs.audioPathFile.map (fun s => strTrim s))) := by
  refine ⟨⟨?_, ?_⟩, ?_, ?_⟩
  · simp only [kill_existing_recording, hpf, parsePid, halive, if_true]
    split <;> rfl
  · simp only [kill_existing_recording, hpf, parsePid, halive, if_true]
    split <;> simp_all
  · simp only [stop_recording, hpf, parsePid, pidIsEmpty, halive, Bool.not_true,
      Bool.false_eq_true, if_false, stop_tail]
    split <;> exact (stop_resolve_state dir now none _ (escalate env w pid)).2.2.2
  · simp only [stop_recording, hpf, parsePid, pidIsEmpty, halive, Bool.not_true,
      Bool.false_eq_true, if_false, stop_tail]
    split <;> rw [stop_resolve_none_res]

/-- C3 witness: the amended theorem applied to a process that ignores
interrupt and terminate but dies on kill. -/
theorem c3_witness :
    (fsC3.pidFile = some (PidContent.num 9)
      ∧ is_process_running envStubborn w0 9 = true)
    ∧ (((kill_existing_recording envStubborn w0 fsC3).w = escalate envStubborn w0 9
        ∧ (kill_existing_recording envStubborn w0 fsC3).res =
            (if is_process_running envStubborn (escalate envStubborn w0 9) 9 then
              Except.error killFailMsg else Except.ok ()))
      ∧ ((stop_recording envStubborn w0 fsC3 "/run/user/1000" 0 none).w
            = escalate envStubborn w0 9
        ∧ (stop_recording envStubborn w0 fsC3 "/run/user/1000" 0 none).res =
            Except.ok (fsC3.audioPathFile.map (fun s => strTrim s)))) :=
  ⟨⟨rfl, by decide⟩,
    c3_escalation envStubborn w0 fsC3 "/run/user/1000" 0 9 rfl (by decide)⟩

/-- On a state with no pid file and no live lock holder,
`start_recording` never fails with the `Busy` error (`acquire_lock`
succeeds; the remaining failure modes carry different messages). -/
theorem start_not_busy_of_clean (env : ProcEnv) (w : World) (fs : FS)
    (dir : String) (now : Nat) (spawn : Option Nat)
    (hpid : fs.pidFile = none) (hheld : fs.lockHeld = false) :
    (start_recording env w fs dir now spawn).res ≠ Except.error busyMsg := by
  obtain ⟨pf, lf, lh, apf, fls⟩ := fs
  simp only [FS.pidFile] at hpid
  simp only [FS.lockHeld] at hheld
  subst hpid
  subst hheld
  unfold start_recording
  simp only [kill_existing_recording, acquire_lock]
  cases spawn with
  | none => simp [busyMsg]
  | some q => simp [busyMsg]

/-- C7: a `stop()` followed immediately by a `start()` never fails with
`Busy` due to leftover lock state: provided no live process holds the
lock when `stop` runs (each `start` invocation releases its own lock
handle before returning, so a finished prior session leaves no live
holder), `stop` leaves the lock unheld (removing the lock file when
present), and the subsequent `start`'s acquire succeeds — its result is
never the `Busy` error. -/
theorem c7_stop_then_start_not_busy (env : ProcEnv) (w : World) (fs : FS)
    (dir : String) (now : Nat) (override : Option String)
    (hheld : fs.lockHeld = false) :
    (stop_recording env w fs dir now override).fs.lockHeld = false
    ∧ ∀ (dir₂ : String) (now₂ : Nat) (spawn : Option Nat),
        (start_recording env (stop_recording env w fs dir now override).w
          (stop_recording env w fs dir now override).fs dir₂ now₂ spawn).res
          ≠ Except.error busyMsg := by
  obtain ⟨hpid, hlock⟩ := stop_recording_clears env w fs dir now override hheld
  exact ⟨hlock, fun dir₂ now₂ spawn =>
    start_not_busy_of_clean env _ _ dir₂ now₂ spawn hpid hlock⟩

/-- C7 witness: the theorem applied to a concrete state with an on-disk
but unheld lock file, instantiating the inner quantifiers as well. -/
theorem c7_witness :
    fsC3.lockHeld = false
    ∧ (stop_recording envDead w0 fsC3 "/run/user/1000" 0 none).fs.lockHeld = false
    ∧ (start_recording envDead (stop_recording envDead w0 fsC3 "/run/user/1000" 0 none).w
        (stop_recording envDead w0 fsC3 "/run/user/1000" 0 none).fs
        "/run/user/1000" 1 (some 12)).res ≠ Except.error busyMsg :=
  ⟨rfl,
    (c7_stop_then_start_not_busy envDead w0 fsC3 "/run/user/1000" 0 none rfl).1,
    (c7_stop_then_start_not_busy envDead w0 fsC3 "/run/user/1000" 0 none rfl).2
      "/run/user/1000" 1 (some 12)⟩

/-- C6: if every previously spawned capture process that is still alive
is the one named by the pid file (the single-live-record invariant),
then a successful `start_recording` — which first terminates, to
completion or with an error, any process the pid file names, before
acquiring the lock and spawning the new child — re-establishes the
invariant with the new child `q` recorded, and in the resulting state
at most one of the spawned processes is alive. -/
theorem c6_start_single_live (env : ProcEnv) (w : World) (fs : FS)
    (dir : String) (now : Nat) (q : Nat) (spawned : List Nat)
    (hInv : ∀ p ∈ spawned, is_process_running env w p = true →
      fs.pidFile = some (PidContent.num p))
    (hok : (start_recording env w fs dir now (some q)).res = .ok ()) :
    (∀ p ∈ q :: spawned,
        is_process_running env (start_recording env w fs dir now (some q)).w p = true →
        (start_recording env w fs dir now (some q)).fs.pidFile = some (PidContent.num p))
    ∧ (∀ p₁ ∈ q :: spawned, ∀ p₂ ∈ q :: spawned,
        is_process_running env (start_recording env w fs dir now (some q)).w p₁ = true →
        is_process_running env (start_recording env w fs dir now (some q)).w p₂ = true →
        p₁ = p₂) := by
  have hfs0 : ({ fs with files := cleanup_old_recordings dir now none fs.files } : FS).pidFile
      = fs.pidFile := rfl
  rcases hK : kill_existing_recording env w
      { fs with files := cleanup_old_recordings dir now none fs.files } with ⟨kres, fs1, w1⟩
  simp only [start_recording] at hok ⊢
  rw [hK] at hok ⊢
  cases kres with
  | error e => simp at hok
  | ok u =>
    have hres : (kill_existing_recording env w
        { fs with files := cleanup_old_recordings dir now none fs.files }).res = .ok () := by
      rw [hK]
    have hw1 : (kill_existing_recording env w
        { fs with files := cleanup_old_recordings dir now none fs.files }).w = w1 := by
      rw [hK]
    simp only [acquire_lock] at hok ⊢
    cases hL : fs1.lockHeld with
    | true =>
      rw [hL] at hok
      simp at hok
    | false =>
      rw [hL] at hok
      simp only [Bool.false_eq_true, if_false] at hok ⊢
      have hdeadOld : ∀ p ∈ spawned, is_process_running env w1 p = true → False := by
        intro p hp halive
        rw [← hw1] at halive
        obtain ⟨hwas, hne⟩ := kill_existing_survivors env w _ hres p halive
        exact hne (hfs0.trans (hInv p hp hwas))
      constructor
      · intro p hp halive
        rcases List.mem_cons.mp hp with hq | hmem
        · subst hq; rfl
        · exact absurd halive (fun h => hdeadOld p hmem h)
      · intro p₁ hp₁ p₂ hp₂ h₁ h₂
        rcases List.mem_cons.mp hp₁ with hq₁ | hm₁
        · rcases List.mem_cons.mp hp₂ with hq₂ | hm₂
          · rw [hq₁, hq₂]
          · exact absurd h₂ (fun h => hdeadOld p₂ hm₂ h)
        · exact absurd h₁ (fun h => hdeadOld p₁ hm₁ h)

/-- C6 witness: the theorem applied to a concrete state where process 9
(the previously spawned recorder, named by the pid file) is alive and
start spawns child 12. -/
theorem c6_witness :
    (∀ p ∈ [9], is_process_running envStubborn w0 p = true →
      fsC3.pidFile = some (PidContent.num p))
    ∧ (start_recording envStubborn w0 fsC3 "/run/user/1000" 5 (some 12)).res = .ok ()
    ∧ ((∀ p ∈ 12 :: [9],
        is_process_running envStubborn
          (start_recording envStubborn w0 fsC3 "/run/user/1000" 5 (some 12)).w p = true →
        (start_recording envStubborn w0 fsC3 "/run/user/1000" 5 (some 12)).fs.pidFile
          = some (PidContent.num p))
      ∧ (∀ p₁ ∈ 12 :: [9], ∀ p₂ ∈ 12 :: [9],
          is_process_running envStubborn
            (start_recording envStubborn w0 fsC3 "/run/user/1000" 5 (some 12)).w p₁ = true →
          is_process_running envStubborn
            (start_recording envStubborn w0 fsC3 "/run/user/1000" 5 (some 12)).w p₂ = true →
          p₁ = p₂)) :=
  ⟨by decide, rfl,
    c6_start_single_live envStubborn w0 fsC3 "/run/user/1000" 5 12 [9]
      (by decide) rfl⟩

/-- C2 witness: the amended theorem applied to a concrete
crashed-session state. -/
theorem c2_witness :
    (⟨some (PidContent.num 5), true, false, some "/tmp/a.wav", []⟩ : FS).pidFile
        = some (PidContent.num 5)
    ∧ is_process_running envDead w0 5 = false
    ∧ ((stop_recording envDead w0
          ⟨some (PidContent.num 5), true, false, some "/tmp/a.wav", []⟩
          "/run/user/1000" 0 none).res = .ok none
      ∧ (stop_recording envDead w0
          ⟨some (PidContent.num 5), true, false, some "/tmp/a.wav", []⟩
          "/run/user/1000" 0 none).fs.pidFile = none
      ∧ (stop_recording envDead w0
          ⟨some (PidContent.num 5), true, false, some "/tmp/a.wav", []⟩
          "/run/user/1000" 0 none).fs.audioPathFile = none
      ∧ (stop_recording envDead w0
          ⟨some (PidContent.num 5), true, false, some "/tmp/a.wav", []⟩
          "/run/user/1000" 0 none).fs.lockFile
        = (⟨some (PidContent.num 5), true, false, some "/tmp/a.wav", []⟩ : FS).lockFile) :=
  ⟨rfl, by decide,
    c2_stop_dead_cleanup envDead w0
      ⟨some (PidContent.num 5), true, false, some "/tmp/a.wav", []⟩
      "/run/user/1000" 0 5 rfl (by decide)⟩

/-- C8 (amended): `is_process_running` returns true exactly when the
`kill -0` probe reports success; permission denied, no-such-process,
invalid id and a failure to spawn the probe all yield false, and the
function is total (never throws) and a pure query. -/
theorem c8_alive_iff_probe_success (env : ProcEnv) (w : World) (pid : Nat) :
    is_process_running env w pid = true ↔ env pid (w pid) = ProbeOutcome.success := by
  unfold is_process_running
  cases h : env pid (w pid) <;> simp [kill_cmd_ok]

/-- C8 counterexample: the claim says a probe reporting permission denied
is interpreted as alive, but the source maps the `kill` utility's
non-success exit status (which EPERM produces) to false: in an
environment whose probe of pid 1 reports permission denied,
`is_process_running` returns false, not the claimed true. -/
theorem c8_eperm_counterexample :
    envEperm 1 (w0 1) = ProbeOutcome.eperm
    ∧ is_process_running envEperm w0 1 = false := by
  exact ⟨rfl, rfl⟩

/-- C1: `is_recording` returns true exactly when the pid file parses to a
pid that probes alive, or the lock file exists and is currently
flock-held by a live process; in particular both individually-stale
states (dead recorded pid; existing but unheld lock file) yield false.
The query is modelled as a pure function: it mutates no state (the
transient flock probe it performs is a net no-op). -/
theorem c1_is_recording_iff (env : ProcEnv) (w : World) (fs : FS) :
    is_recording env w fs = true ↔
      ((∃ pid, fs.pidFile = some (PidContent.num pid) ∧ is_process_running env w pid = true)
        ∨ (fs.lockFile = true ∧ fs.lockHeld = true)) := by
  obtain ⟨pf, lf, lh, apf, fls⟩ := fs
  cases pf with
  | none => simp [is_recording]
  | some c =>
    cases c with
    | num pid =>
      cases hr : is_process_running env w pid with
      | true => simp [is_recording, parsePid, hr]
      | false => simp [is_recording, parsePid, hr]
    | junk => simp [is_recording, parsePid]
    | blank => simp [is_recording, parsePid]

theorem chunks2_length : ∀ l : List Nat, (chunks2 l).length = l.length / 2
  | [] => by simp [chunks2]
  | [_] => by simp [chunks2]
  | _ :: _ :: rest => by
    simp only [chunks2, List.length_cons, chunks2_length rest]
    omega

theorem chunks2_getElem? : ∀ (l : List Nat) (i : Nat), i < (chunks2 l).length →
    (chunks2 l)[i]? = some (l.getD (2 * i) 0, l.getD (2 * i + 1) 0)
  | [], i, h => by simp [chunks2] at h
  | [_], i, h => by simp [chunks2] at h
  | a :: b :: rest, 0, _ => by simp [chunks2]
  | a :: b :: rest, i + 1, h => by
    simp only [chunks2, List.length_cons, Nat.add_lt_add_iff_right] at h
    have heq : 2 * (i + 1) = 2 * i + 1 + 1 := by ring
    simp only [chunks2, List.getElem?_cons_succ, heq, List.getD_cons_succ]
    exact chunks2_getElem? rest i h

/-- C10: `wav_to_samples` rejects exactly the inputs shorter than the
44-byte header; on an input of length `n ≥ 44` it yields
`(n - 44) / 2` samples (so the trailing odd byte is dropped and a
44-byte input gives the empty list), sample `i` being the little-endian
signed 16-bit value of bytes `44+2i, 45+2i` divided by 32767. -/
theorem c10_wav_to_samples (wav : List Nat) :
    (wav.length < 44 → wav_to_samples wav = .error "Invalid WAV file: too short")
    ∧ (44 ≤ wav.length →
        ∃ s, wav_to_samples wav = .ok s ∧ s.length = (wav.length - 44) / 2 ∧
          ∀ i, i < s.length →
            s[i]? = some ((toI16 (wav.getD (44 + 2 * i) 0) (wav.getD (45 + 2 * i) 0) : ℚ)
              / 32767)) := by
  constructor
  · intro h
    simp [wav_to_samples, h]
  · intro h
    refine ⟨(chunks2 (wav.drop 44)).map (fun p => (toI16 p.1 p.2 : ℚ) / 32767),
      by simp [wav_to_samples, Nat.not_lt.mpr h], ?_, ?_⟩
    · simp [chunks2_length]
    · intro i hi
      have hi' : i < (chunks2 (wav.drop 44)).length := by simpa using hi
      rw [List.getElem?_map, chunks2_getElem? _ _ hi', Option.map_some']
      have h1 : (wav.drop 44).getD (2 * i) 0 = wav.getD (44 + 2 * i) 0 := by
        rw [List.getD_eq_getElem?_getD, List.getD_eq_getElem?_getD, List.getElem?_drop]
      have h2 : (wav.drop 44).getD (2 * i + 1) 0 = wav.getD (45 + 2 * i) 0 := by
        rw [List.getD_eq_getElem?_getD, List.getD_eq_getElem?_getD, List.getElem?_drop]
        have : 44 + (2 * i + 1) = 45 + 2 * i := by ring
        rw [this]
      rw [h1, h2]

/-- C10 witness: a 46-byte input (header plus one little-endian sample
`0x2710 = 10000`) evaluated through the theorem. -/
theorem c10_witness :
    44 ≤ (List.replicate 44 0 ++ [16, 39] : List Nat).length ∧
    ∃ s, wav_to_samples (List.replicate 44 0 ++ [16, 39]) = .ok s ∧
      s.length = ((List.replicate 44 0 ++ [16, 39] : List Nat).length - 44) / 2 ∧
      ∀ i, i < s.length →
        s[i]? = some ((toI16 ((List.replicate 44 0 ++ [16, 39] : List Nat).getD (44 + 2 * i) 0)
          ((List.replicate 44 0 ++ [16, 39] : List Nat).getD (45 + 2 * i) 0) : ℚ) / 32767) :=
  ⟨by decide, (c10_wav_to_samples (List.replicate 44 0 ++ [16, 39])).2 (by decide)⟩

/-- Looking up a path in a listing it was removed from yields nothing. -/
theorem lookupSize_removeEntry (files : List FileE) (p : String) :
    lookupSize (removeEntry files p) p = none := by
  simp only [lookupSize, removeEntry, Option.map_eq_none', List.find?_eq_none,
    List.mem_filter]
  intro e he
  simpa using he.2

/-- C9: for a fully received daemon response: a success-marked response
with extractable text hands that (trimmed) text to the output sink —
whitespace-only text being reported as the valid no-speech success and
not as an error; a success-marked response whose text field cannot be
parsed is reported as the distinct malformed-response condition rather
than silently treated as empty; and a response not marked success is
reported as a transcription failure.  All three cases return `Ok` with
pairwise distinct report events. -/
theorem c9_response_cases (resp audio backend : String) (clip : Bool) :
    (respSuccess resp = true → ∀ t, extract_text_from_response resp = some t →
      send_transcription_request (ConnOutcome.gotResponse resp) audio backend clip
        = (if (strTrim (strTrim t)).data.isEmpty then
            (.ok (), [Event.noSpeechNote (backend ++ " daemon")])
          else (.ok (), [Event.delivered (strTrim (strTrim t)) clip])))
    ∧ (respSuccess resp = true → extract_text_from_response resp = none →
      send_transcription_request (ConnOutcome.gotResponse resp) audio backend clip
        = (.ok (), [Event.malformedNote backend]))
    ∧ (respSuccess resp = false →
      send_transcription_request (ConnOutcome.gotResponse resp) audio backend clip
        = (.ok (), [Event.transFailedNote backend])) := by
  refine ⟨?_, ?_, ?_⟩
  · intro hs t ht
    simp [send_transcription_request, hs, ht, output_text]
  · intro hs ht
    simp [send_transcription_request, hs, ht]
  · intro hs
    simp [send_transcription_request, hs]

/-- C9 witness: the theorem applied to a concrete success response with
extractable text `"hi"`. -/
theorem c9_witness :
    respSuccess c9resp = true
    ∧ extract_text_from_response c9resp = some "hi"
    ∧ send_transcription_request (ConnOutcome.gotResponse c9resp) "/a.wav"
        "faster-whisper" false
        = (if (strTrim (strTrim "hi")).data.isEmpty then
            (.ok (), [Event.noSpeechNote ("faster-whisper" ++ " daemon")])
          else (.ok (), [Event.delivered (strTrim (strTrim "hi")) false])) :=
  ⟨by decide, by decide,
    (c9_response_cases c9resp "/a.wav" "faster-whisper" false).1 (by decide) "hi"
      (by decide)⟩

/-- C5: the stop-and-transcribe flow classifies its inputs: a stopped
recording whose artifact exists with at most 44 bytes (WAV header only)
is reported as the empty-artifact condition — the artifact is deleted
and no transcription is attempted; the no-recording condition is
reported exactly when `stop_recording` returns `None`; and a returned
path that does not exist is reported as the (also
transcription-free) no-audio condition.  The three conditions carry
distinct events. -/
theorem c5_empty_artifact (env : ProcEnv) (w : World) (fs : FS) (dir : String)
    (now : Nat) (conn : ConnOutcome) (renv : ResolveEnv)
    (backend : Except String String) (clip : Bool) :
    (∀ p sz, (stop_recording env w fs dir now none).res = .ok (some p) →
      lookupSize (stop_recording env w fs dir now none).fs.files p = some sz →
      sz ≤ 44 →
      (stop_and_transcribe_daemon env w fs dir now conn renv backend clip).events
          = [Event.emptyNote]
        ∧ (stop_and_transcribe_daemon env w fs dir now conn renv backend clip).res = .ok ()
        ∧ lookupSize
            (stop_and_transcribe_daemon env w fs dir now conn renv backend clip).fs.files p
          = none)
    ∧ ((stop_recording env w fs dir now none).res = .ok none →
      (stop_and_transcribe_daemon env w fs dir now conn renv backend clip).events
        = [Event.noRecordingNote])
    ∧ (∀ p, (stop_recording env w fs dir now none).res = .ok (some p) →
      lookupSize (stop_recording env w fs dir now none).fs.files p = none →
      (stop_and_transcribe_daemon env w fs dir now conn renv backend clip).events
        = [Event.noAudioNote]) := by
  rcases hS : stop_recording env w fs dir now none with ⟨res, fs1, w1⟩
  unfold stop_and_transcribe_daemon
  rw [hS]
  refine ⟨?_, ?_, ?_⟩
  · intro p sz h1 h2 h3
    simp only at h1 h2
    subst h1
    simp [h2, h3, lookupSize_removeEntry]
  · intro h1
    simp only at h1
    subst h1
    rfl
  · intro p h1 h2
    simp only at h1 h2
    subst h1
    simp only [h2]

/-- C5 witness: the theorem applied to a concrete state whose stopped
recording produced a header-only 44-byte artifact. -/
theorem c5_witness :
    (stop_recording envDead w0 fsC5 "/r" 3 none).res = .ok (some "/r/e.wav")
    ∧ lookupSize (stop_recording envDead w0 fsC5 "/r" 3 none).fs.files "/r/e.wav" = some 44
    ∧ (44 : Nat) ≤ 44
    ∧ ((stop_and_transcribe_daemon envDead w0 fsC5 "/r" 3 (ConnOutcome.connectFail "refused")
          ⟨none, none⟩ (Except.ok "hi") false).events = [Event.emptyNote]
      ∧ (stop_and_transcribe_daemon envDead w0 fsC5 "/r" 3 (ConnOutcome.connectFail "refused")
          ⟨none, none⟩ (Except.ok "hi") false).res = .ok ()
      ∧ lookupSize (stop_and_transcribe_daemon envDead w0 fsC5 "/r" 3
          (ConnOutcome.connectFail "refused") ⟨none, none⟩ (Except.ok "hi") false).fs.files
          "/r/e.wav" = none) :=
  ⟨by decide, by decide, by decide,
    (c5_empty_artifact envDead w0 fsC5 "/r" 3 (ConnOutcome.connectFail "refused")
        ⟨none, none⟩ (Except.ok "hi") false).1 "/r/e.wav" 44
      (by decide) (by decide) (by decide)⟩

/-- C4: when the connect to the daemon socket fails, the client falls
back to exactly one direct one-shot backend invocation against the same
audio file with the same resolved model; the daemon-unreachable
condition alone is never surfaced (a succeeding fallback yields `Ok`);
and the invocation errors only when the fallback also fails, with a
message reporting both the daemon connect failure and the fallback
failure together. -/
theorem c4_daemon_fallback (env : ProcEnv) (w : World) (fs : FS) (dir : String)
    (now : Nat) (e : String) (renv : ResolveEnv) (backend : Except String String)
    (clip : Bool) (p : String) (sz : Nat)
    (hstop : (stop_recording env w fs dir now none).res = .ok (some p))
    (hsz : lookupSize (stop_recording env w fs dir now none).fs.files p = some sz)
    (hbig : 44 < sz) :
    ((stop_and_transcribe_daemon env w fs dir now (ConnOutcome.connectFail e) renv
        backend clip).events.filter isDirectCall
      = [Event.directCall p (resolve_model none renv)])
    ∧ (∀ out, backend = .ok out →
        (stop_and_transcribe_daemon env w fs dir now (ConnOutcome.connectFail e) renv
          backend clip).res = .ok ())
    ∧ (∀ berr, backend = .error berr →
        (stop_and_transcribe_daemon env w fs dir now (ConnOutcome.connectFail e) renv
          backend clip).res
          = .error ("Fallback transcription failed (daemon was: "
              ++ ("Failed to connect to daemon: " ++ e) ++ "): "
              ++ ("Transcription failed: " ++ berr))) := by
  rcases hS : stop_recording env w fs dir now none with ⟨res, fs1, w1⟩
  rw [hS] at hstop hsz
  simp only at hstop hsz
  subst hstop
  unfold stop_and_transcribe_daemon
  rw [hS]
  simp only [hsz]
  rw [if_neg (by omega)]
  simp only [send_transcription_request]
  refine ⟨?_, ?_, ?_⟩
  · cases backend with
    | ok out =>
      simp only [transcribe_with_faster_whisper, output_text]
      by_cases hb : (strTrim (strTrim out)).data.isEmpty = true <;>
        simp [hb, isDirectCall]
    | error berr => simp [transcribe_with_faster_whisper, isDirectCall]
  · intro out hout
    subst hout
    simp only [transcribe_with_faster_whisper, output_text]
    by_cases hb : (strTrim (strTrim out)).data.isEmpty = true <;>
      simp [hb, Except.mapError]
  · intro berr hberr
    subst hberr
    simp [transcribe_with_faster_whisper, Except.mapError]

/-- C4 witness: the theorem applied to a concrete state and a failing
backend, showing the single fallback call and the combined error. -/
theorem c4_witness :
    (stop_recording envDead w0 fsC4 "/r" 7 none).res = .ok (some "/r/a.wav")
    ∧ lookupSize (stop_recording envDead w0 fsC4 "/r" 7 none).fs.files "/r/a.wav" = some 100
    ∧ (44 : Nat) < 100
    ∧ ((stop_and_transcribe_daemon envDead w0 fsC4 "/r" 7
          (ConnOutcome.connectFail "refused") ⟨none, some "small"⟩
          (Except.error "boom") false).events.filter isDirectCall
        = [Event.directCall "/r/a.wav" (resolve_model none ⟨none, some "small"⟩)])
    ∧ (stop_and_transcribe_daemon envDead w0 fsC4 "/r" 7
          (ConnOutcome.connectFail "refused") ⟨none, some "small"⟩
          (Except.error "boom") false).res
        = .error ("Fallback transcription failed (daemon was: "
            ++ ("Failed to connect to daemon: " ++ "refused") ++ "): "
            ++ ("Transcription failed: " ++ "boom")) :=
  ⟨by decide, by decide, by decide,
    (c4_daemon_fallback envDead w0 fsC4 "/r" 7 "refused" ⟨none, some "small"⟩
        (Except.error "boom") false "/r/a.wav" 100 (by decide) (by decide) (by decide)).1,
    (c4_daemon_fallback envDead w0 fsC4 "/r" 7 "refused" ⟨none, some "small"⟩
        (Except.error "boom") false "/r/a.wav" 100 (by decide) (by decide) (by decide)).2.2
      "boom" rfl⟩

end WhispAway
